import Mathlib

/-!
Shallow embedding of the driver/translation core of the `pif` gateway.

Files embedded:
  * `driver/translation.go`   — value coercion (`convert`), formula compilation
    (`Translation.init`), and the rule engine (`Translate`, `translateMap`,
    `translateCoeff`);
  * `driver/hardwareDescriptor.go` — the descriptor and formula records
    (fields never read by the translation core are omitted);
  * `driver/driverItem.go`    — driver item assembly (`initDriverItem`);
  * the legacy variant of the assembly found elsewhere in the repository
    (`unnamed/part_001`), embedded under namespace `legacy`.

Modelling conventions:
  * Go `float64`/`float32` values are modelled as exact rationals (`ℚ`).
    Parsing and arithmetic are exact; IEEE-754 rounding, infinities, NaN,
    hexadecimal float syntax and digit underscores are outside the model.
    Every concrete value appearing in the development is exactly
    representable, so the model agrees with the code there.
  * Go `int64`/`int` are modelled as `ℤ`; the implementation-dependent
    result of an out-of-range float-to-int conversion is elided
    (`ratTrunc` is plain truncation toward zero, which is Go's behaviour
    whenever the value fits).
  * A Go `map[interface{}]interface{}` is modelled as an association list
    in insertion order with Go's assignment semantics (overwrite on equal
    key).  The Go runtime iterates maps in unspecified order; in this
    program at most one entry can match a lookup (keys are distinct and
    produced by `convert`), so fixing insertion order is faithful.
-/

namespace driver

/-- The closed universe of runtime values flowing through the translation
core: the dynamic types that `translation.go` inspects (`float64`,
`float32`, `int64`, `int`, `bool`, `string`).  Go interface equality
(`==`) on these values is equality of dynamic type and value, i.e.
structural equality of this datatype. -/
inductive GoValue where
  | f64 : ℚ → GoValue
  | f32 : ℚ → GoValue
  | i64 : ℤ → GoValue
  | int : ℤ → GoValue
  | bool : Bool → GoValue
  | str : String → GoValue
deriving DecidableEq

/-- Numeric value of a string of decimal digits. -/
def decVal (l : List Char) : ℕ :=
  l.foldl (fun n c => 10 * n + (c.toNat - 48)) 0

/-- Model of `strconv.ParseFloat(s, 64)` restricted to decimal syntax
`[+-]? digits [. digits]? [(e|E) [+-]? digits]?` (at least one mantissa
digit).  Hexadecimal floats, `Inf`/`NaN` and digit-separating underscores
are omitted: their values are not representable in the exact-rational
model and no descriptor in the development uses them.  The result is the
exact rational value of the literal. -/
def goParseFloat (s : String) : Option ℚ :=
  let cs := s.data
  let signRest : Bool × List Char :=
    match cs with
    | '+' :: r => (false, r)
    | '-' :: r => (true, r)
    | _ => (false, cs)
  let neg := signRest.1
  let cs1 := signRest.2
  let ip := cs1.takeWhile (·.isDigit)
  let cs2 := cs1.dropWhile (·.isDigit)
  let fracRest : List Char × List Char :=
    match cs2 with
    | '.' :: r => (r.takeWhile (·.isDigit), r.dropWhile (·.isDigit))
    | _ => ([], cs2)
  let fp := fracRest.1
  let cs3 := fracRest.2
  if ip.isEmpty && fp.isEmpty then none
  else
    let mant : ℚ := (decVal ip : ℚ) + (decVal fp : ℚ) / (10 : ℚ) ^ fp.length
    let signed : ℚ := if neg then -mant else mant
    match cs3 with
    | [] => some signed
    | e :: r =>
      if e = 'e' || e = 'E' then
        let esignRest : Bool × List Char :=
          match r with
          | '+' :: r2 => (false, r2)
          | '-' :: r2 => (true, r2)
          | _ => (false, r)
        let ed := esignRest.2.takeWhile (·.isDigit)
        let rest := esignRest.2.dropWhile (·.isDigit)
        if ed.isEmpty || !rest.isEmpty then none
        else
          let ex : ℤ := if esignRest.1 then -(decVal ed : ℤ) else (decVal ed : ℤ)
          some (signed * (10 : ℚ) ^ ex)
      else none

/-- Model of `strconv.ParseBool`: accepts exactly
`1, t, T, TRUE, true, True` (true) and `0, f, F, FALSE, false, False`
(false). -/
def goParseBool (s : String) : Option Bool :=
  if s = "1" || s = "t" || s = "T" || s = "TRUE" || s = "true" || s = "True" then
    some true
  else if s = "0" || s = "f" || s = "F" || s = "FALSE" || s = "false" || s = "False" then
    some false
  else none

/-- `convert` from `driver/translation.go`: try a full float parse, then a
boolean parse, then fall back to the original string. -/
def convert (data : String) : GoValue :=
  match goParseFloat data with
  | some f => .f64 f
  | none =>
    match goParseBool data with
    | some b => .bool b
    | none => .str data

/-- `Formula` from `driver/hardwareDescriptor.go`.  Only the fields the
translation core reads are kept (`Map`, `A`); the remaining descriptor
fields (`B`, `G`, frame-layout indices, …) are never consulted by
`Translation.init` or the rule engine. -/
structure Formula where
  Map : String
  A : Option ℚ
deriving DecidableEq

/-- `Translation` from `driver/translation.go`: a compiled rule.  The Go
`map[interface{}]interface{}` is an association list here (see the module
header). -/
structure Translation where
  Field : String
  Map : List (GoValue × GoValue)
  A : ℚ
deriving DecidableEq

/-- Go `strings.Split` for a one-character separator (the program only
splits on `";"` and `","`).  `Split("", sep) = [""]`. -/
def splitOnChar (sep : Char) : List Char → List (List Char)
  | [] => [[]]
  | c :: rest =>
    let r := splitOnChar sep rest
    if c = sep then [] :: r
    else
      match r with
      | [] => [[c]]
      | h :: t => (c :: h) :: t

/-- Go map assignment `m[k] = v`: overwrite the value when the key is
already present, otherwise append a new binding. -/
def mapInsert (m : List (GoValue × GoValue)) (k v : GoValue) :
    List (GoValue × GoValue) :=
  if m.any (fun p => p.1 = k) then
    m.map (fun p => if p.1 = k then (k, v) else p)
  else m ++ [(k, v)]

/-- One iteration of the tuple loop of `Translation.init`: strip `(` and
`)` (Go `strings.ReplaceAll(..., "")` removes every occurrence), split on
`,`, skip the tuple unless exactly two fields result, otherwise insert
the coerced key with either the raw-string or the coerced value. -/
def initTuple (forceToString : Bool) (m : List (GoValue × GoValue))
    (tupleRaw : List Char) : List (GoValue × GoValue) :=
  let tuple := (tupleRaw.filter (· ≠ '(')).filter (· ≠ ')')
  match splitOnChar ',' tuple with
  | [k, v] =>
      mapInsert m (convert ⟨k⟩)
        (if forceToString then .str ⟨v⟩ else convert ⟨v⟩)
  | _ => m

/-- `(*Translation).init` from `driver/translation.go`.  The Go method
mutates `t.A` and `t.Map` in place, leaving `t.Field` untouched; here it
returns the updated record.  The Go callers pass a `nil` formula pointer
only together with `formulaExit = false`, where it is never dereferenced;
`Option.getD` with the Go zero `Formula` models the pointer. -/
def Translation.init (t : Translation) (formula : Option Formula)
    (formulaExit forceToString : Bool) : Translation :=
  if !formulaExit then { t with A := 1, Map := [] }
  else
    let f := formula.getD { Map := "", A := none }
    let a := f.A.getD 1
    let table :=
      if f.Map = "" then []
      else (splitOnChar ';' f.Map.data).foldl (initTuple forceToString) []
    { t with A := a, Map := table }

/-- The lookup condition of the loop in `translateMap`:
`key == data || (Kind(data) == Int && Kind(key) == Float64 &&
key == float64(data.(int)))`.  Exact interface equality, plus the single
cross-type accommodation for a native-`int` datum against a `float64`
key. -/
def matchKey (key data : GoValue) : Bool :=
  key = data ||
    match data, key with
    | .int n, .f64 q => q = (n : ℚ)
    | _, _ => false

/-- `(*Translation).translateMap`: when the table is non-empty, return
the value of the first entry whose key matches; otherwise (or on a miss)
return the datum unchanged. -/
def Translation.translateMap (t : Translation) (data : GoValue) : GoValue :=
  if t.Map.isEmpty then data
  else
    match t.Map.find? (fun kv => matchKey kv.1 data) with
    | some kv => kv.2
    | none => data

/-- Go's float-to-`int64` conversion, truncation toward zero (exact for
in-range values; the out-of-range case is implementation-dependent in Go
and elided here). -/
def ratTrunc (q : ℚ) : ℤ :=
  if 0 ≤ q then ⌊q⌋ else -⌊-q⌋

/-- `(*Translation).translateCoeff`: type-switch over the four accepted
numeric representations; multiply by the coefficient, truncating the
product to `int64` when `A > 1` and keeping a `float64` otherwise; any
other runtime type is returned unchanged (after a logged warning). -/
def Translation.translateCoeff (t : Translation) (value : GoValue) : GoValue :=
  match value with
  | .f64 f => if 1 < t.A then .i64 (ratTrunc (f * t.A)) else .f64 (f * t.A)
  | .f32 f => if 1 < t.A then .i64 (ratTrunc (f * t.A)) else .f64 (f * t.A)
  | .i64 n => if 1 < t.A then .i64 (ratTrunc ((n : ℚ) * t.A)) else .f64 ((n : ℚ) * t.A)
  | .int n => if 1 < t.A then .i64 (ratTrunc ((n : ℚ) * t.A)) else .f64 ((n : ℚ) * t.A)
  | other => other

/-- `(*Translation).Translate`: table lookup, then coefficient scaling
when the coefficient differs from 1. -/
def Translation.Translate (t : Translation) (data : GoValue) : GoValue :=
  let value := t.translateMap data
  if t.A ≠ 1 then t.translateCoeff value else value

/-- `HardwareDescriptor` from `driver/hardwareDescriptor.go`.  Only the
fields `initDriverItem` reads are kept; the remaining JSON fields
(`communicationType`, `protocol`, EnOcean indices, …) are never consulted
by the assembly or the translation core.  Go `*string`/`*int` pointers
become `Option`; the Go `map[string]Formula` becomes an association
list. -/
structure HardwareDescriptor where
  IsSensor : Bool
  ExtendedType : Option String
  Formula : List (String × Formula)
  Frequency : Option ℤ
  PairingNeeded : Bool
  RequestFrame : Option String
  AckFrame : Option String
  StateRequestFrame : Option String
deriving DecidableEq

/-- `DriverItem` from `driver/driverItem.go` (current version): the
assembled unit, holding the originating descriptor for diagnostics. -/
structure DriverItem where
  Type' : String  -- Go field `Type` (`Type` is a Lean keyword)
  Read : Translation
  Write : Translation
  Frequency : Option ℤ
  IsSensor : Bool
  PairingNeeded : Bool
  HDesc : HardwareDescriptor
deriving DecidableEq

/-- Go two-value map read `f, ok := hd.Formula[name]` on the association
list (the boolean is recovered as `Option.isSome`). -/
def formulaLookup (fs : List (String × Formula)) (name : String) : Option Formula :=
  (fs.find? (fun p => p.1 == name)).map (fun p => p.2)

/-- `initDriverItem` from `driver/driverItem.go` (current version).  The
Go function starts from the zero `DriverItem`, so a frame field that is
never assigned stays `""`; it returns `(driver, true)` on every path.
The `(*DriverItem, bool)` return is modelled as `Option DriverItem ×
Bool`. -/
def initDriverItem (hd : HardwareDescriptor) : Option DriverItem × Bool :=
  let ty := hd.ExtendedType.getD ""
  let readField :=
    if hd.IsSensor then hd.RequestFrame.getD ""
    else hd.AckFrame.getD ""
  let writeField :=
    if hd.IsSensor then hd.RequestFrame.getD ""
    else
      match hd.StateRequestFrame with
      | some s => s
      | none => hd.AckFrame.getD ""
  let readRule :=
    if hd.IsSensor then
      Translation.init ⟨readField, [], 0⟩ (formulaLookup hd.Formula "STANDARD")
        (formulaLookup hd.Formula "STANDARD").isSome true
    else
      Translation.init ⟨readField, [], 0⟩ (formulaLookup hd.Formula "STATE")
        (formulaLookup hd.Formula "STATE").isSome true
  let writeRule :=
    if hd.IsSensor then
      Translation.init ⟨writeField, [], 0⟩ none false false
    else
      Translation.init ⟨writeField, [], 0⟩ (formulaLookup hd.Formula "STANDARD")
        (formulaLookup hd.Formula "STANDARD").isSome false
  (some { Type' := ty, Read := readRule, Write := writeRule,
          Frequency := hd.Frequency, IsSensor := hd.IsSensor,
          PairingNeeded := hd.PairingNeeded, HDesc := hd }, true)

end driver

namespace legacy

/-- `HardwareDescriptor` of the legacy driver package
(`unnamed/part_000`): same communication fields, plus the value-index
window that the legacy `DriverItem` copies through. -/
structure HardwareDescriptor where
  IsSensor : Bool
  ExtendedType : Option String
  Formula : List (String × driver.Formula)
  ValueFirstIndex : Option ℤ
  ValueLastIndex : Option ℤ
  Frequency : Option ℤ
  PairingNeeded : Bool
  RequestFrame : Option String
  AckFrame : Option String
  StateRequestFrame : Option String
deriving DecidableEq

/-- `DriverItem` of the legacy driver package (`unnamed/part_001`). -/
structure DriverItem where
  Type' : String  -- Go field `Type` (`Type` is a Lean keyword)
  Read : driver.Translation
  Write : driver.Translation
  Frequency : Option ℤ
  IsSensor : Bool
  ValueFirstIndex : Option ℤ
  ValueLastIndex : Option ℤ
  PairingNeeded : Bool
deriving DecidableEq

/-- `initDriverItem` from `unnamed/part_001` (legacy version): a sensor
descriptor without `RequestFrame`, or an actuator descriptor without
`AckFrame`, is a hard failure `(nil, false)`; otherwise the item is
assembled exactly as in the current version. -/
def initDriverItem (hd : HardwareDescriptor) : Option DriverItem × Bool :=
  let ty := hd.ExtendedType.getD ""
  if hd.IsSensor then
    match hd.RequestFrame with
    | none => (none, false)
    | some rf =>
      let std := driver.formulaLookup hd.Formula "STANDARD"
      (some { Type' := ty,
              Read := driver.Translation.init ⟨rf, [], 0⟩ std std.isSome true,
              Write := driver.Translation.init ⟨rf, [], 0⟩ none false false,
              Frequency := hd.Frequency, IsSensor := hd.IsSensor,
              ValueFirstIndex := hd.ValueFirstIndex,
              ValueLastIndex := hd.ValueLastIndex,
              PairingNeeded := hd.PairingNeeded }, true)
  else
    match hd.AckFrame with
    | none => (none, false)
    | some ack =>
      let wf :=
        match hd.StateRequestFrame with
        | some s => s
        | none => ack
      let std := driver.formulaLookup hd.Formula "STANDARD"
      let st := driver.formulaLookup hd.Formula "STATE"
      (some { Type' := ty,
              Read := driver.Translation.init ⟨ack, [], 0⟩ st st.isSome true,
              Write := driver.Translation.init ⟨wf, [], 0⟩ std std.isSome false,
              Frequency := hd.Frequency, IsSensor := hd.IsSensor,
              ValueFirstIndex := hd.ValueFirstIndex,
              ValueLastIndex := hd.ValueLastIndex,
              PairingNeeded := hd.PairingNeeded }, true)

end legacy

/-! Helper lemmas shared by the claim theorems. -/

/-- Compiling a formula never touches the rule's `Field` (the Go method
only assigns `t.A` and `t.Map`). -/
theorem Translation.init_Field (t : driver.Translation)
    (formula : Option driver.Formula) (formulaExit forceToString : Bool) :
    (t.init formula formulaExit forceToString).Field = t.Field := by
  unfold driver.Translation.init
  split <;> rfl

/-! Claim theorems. -/

/-- C4: for every formula (whatever its coefficient and map contents),
compiling with `present = false` yields the identity rule (coefficient 1,
empty table), and the resulting rule translates every value to itself. -/
theorem init_absent_formula_identity (t : driver.Translation)
    (formula : Option driver.Formula) (forceToString : Bool) (x : driver.GoValue) :
    (t.init formula false forceToString).A = 1 ∧
    (t.init formula false forceToString).Map = [] ∧
    (t.init formula false forceToString).Translate x = x := by
  refine ⟨rfl, rfl, ?_⟩
  simp [driver.Translation.init, driver.Translation.Translate,
    driver.Translation.translateMap]

/-- C9: coefficient scaling leaves every value whose runtime type is not
one of the four accepted numeric representations (here: booleans and
strings) unchanged, for any coefficient. -/
theorem translateCoeff_nonnumeric_passthrough (t : driver.Translation)
    (b : Bool) (s : String) :
    t.translateCoeff (.bool b) = .bool b ∧ t.translateCoeff (.str s) = .str s :=
  ⟨rfl, rfl⟩

/-- C2: table-lookup key equality is exact-type equality except that a
native-integer datum matches a floating-point key of equal numeric
value; in particular the rule compiled from map `"(1,OPEN)"` with
`forceValueToString = true` translates the integer `1` to the string
`"OPEN"`. -/
theorem translate_crosstype_int_float_lookup :
    (∀ key data : driver.GoValue,
        driver.matchKey key data = true ↔
          (key = data ∨ ∃ n : ℤ, data = .int n ∧ key = .f64 (n : ℚ))) ∧
    (driver.Translation.init ⟨"", [], 0⟩
        (some { Map := "(1,OPEN)", A := none }) true true).Translate (.int 1) =
      .str "OPEN" := by
  constructor
  · intro key data
    cases data <;> cases key <;> simp [driver.matchKey, eq_comm]
  · simp +decide [driver.Translation.init, driver.initTuple, driver.mapInsert,
      driver.splitOnChar, driver.convert, driver.goParseFloat, driver.goParseBool,
      driver.decVal, driver.Translation.Translate, driver.Translation.translateMap,
      driver.matchKey]

/-- C5: formula map compilation splits on `;`, strips parentheses, splits
on `,`, skips tokens without exactly two fields and keeps the well-formed
tuples: `"(1,OPEN);bad;(0,CLOSED)"` with `forceValueToString = true`
compiles to exactly the two-entry table `1 ↦ "OPEN"`, `0 ↦ "CLOSED"`. -/
theorem init_map_parsing_drops_malformed :
    (driver.Translation.init ⟨"", [], 0⟩
        (some { Map := "(1,OPEN);bad;(0,CLOSED)", A := none }) true true).Map =
      [(.f64 1, .str "OPEN"), (.f64 0, .str "CLOSED")] := by
  simp +decide [driver.Translation.init, driver.initTuple, driver.mapInsert,
    driver.splitOnChar, driver.convert, driver.goParseFloat, driver.goParseBool,
    driver.decVal]

/-- C6: value coercion is total and tries the variants in fixed priority
order — float parse, then boolean parse, then the unmodified string — so
`convert "3.14"` is the float `3.14`, `convert "true"` is `true`,
`convert "OPEN"` is the string `"OPEN"`, and `convert "1"` is the float
`1` (not a boolean, not a string). -/
theorem convert_priority :
    (∀ (s : String) (q : ℚ),
        driver.goParseFloat s = some q → driver.convert s = .f64 q) ∧
    (∀ (s : String) (b : Bool), driver.goParseFloat s = none →
        driver.goParseBool s = some b → driver.convert s = .bool b) ∧
    (∀ s : String, driver.goParseFloat s = none → driver.goParseBool s = none →
        driver.convert s = .str s) ∧
    driver.convert "3.14" = .f64 (3.14 : ℚ) ∧
    driver.convert "true" = .bool true ∧
    driver.convert "OPEN" = .str "OPEN" ∧
    driver.convert "1" = .f64 1 := by
  refine ⟨?_, ?_, ?_, ?_, ?_, ?_, ?_⟩
  · intro s q h
    simp [driver.convert, h]
  · intro s b h1 h2
    simp [driver.convert, h1, h2]
  · intro s h1 h2
    simp [driver.convert, h1, h2]
  · simp +decide [driver.convert, driver.goParseFloat, driver.goParseBool, driver.decVal]
    norm_num
  · simp +decide [driver.convert, driver.goParseFloat, driver.goParseBool, driver.decVal]
  · simp +decide [driver.convert, driver.goParseFloat, driver.goParseBool, driver.decVal]
  · simp +decide [driver.convert, driver.goParseFloat, driver.goParseBool, driver.decVal]

/-- C6 witness: `"t"` fails the float parse, parses as the boolean
`true`, and `convert` therefore yields the boolean, by the second clause
of `convert_priority`. -/
theorem convert_priority_witness :
    driver.goParseFloat "t" = none ∧ driver.goParseBool "t" = some true ∧
    driver.convert "t" = .bool true :=
  ⟨by decide, by decide, convert_priority.2.1 "t" true (by decide) (by decide)⟩

/-- C7: when no entry of a non-empty table matches the datum under the
engine's key-equality rule, the table-lookup step returns the datum
unchanged (lookup misses never fail). -/
theorem translateMap_miss_passthrough (t : driver.Translation) (v : driver.GoValue)
    (hne : t.Map ≠ []) (hmiss : ∀ kv ∈ t.Map, driver.matchKey kv.1 v = false) :
    t.translateMap v = v := by
  have hfind : t.Map.find? (fun kv => driver.matchKey kv.1 v) = none := by
    rw [List.find?_eq_none]
    intro kv hkv
    simp [hmiss kv hkv]
  simp [driver.Translation.translateMap, hfind]

/-- C7 witness: the string `"x"` misses the one-entry table `1 ↦ "OPEN"`
and passes through unchanged. -/
theorem translateMap_miss_passthrough_witness :
    (⟨"", [(.f64 1, .str "OPEN")], 1⟩ : driver.Translation).translateMap (.str "x") =
      .str "x" :=
  translateMap_miss_passthrough _ _ (by decide) (by decide)

/-- C10: the cross-type lookup accommodation covers only the native
integer type: an `int64` datum never matches a table whose keys are all
floating-point, even at equal numeric value, so the lookup step returns
it unchanged. -/
theorem translateMap_int64_crosstype_excluded (t : driver.Translation) (n : ℤ)
    (hne : t.Map ≠ []) (hkeys : ∀ kv ∈ t.Map, ∃ q : ℚ, kv.1 = .f64 q) :
    t.translateMap (.i64 n) = .i64 n := by
  have hfind : t.Map.find? (fun kv => driver.matchKey kv.1 (.i64 n)) = none := by
    rw [List.find?_eq_none]
    intro kv hkv
    obtain ⟨q, hq⟩ := hkeys kv hkv
    simp [driver.matchKey, hq]
  simp [driver.Translation.translateMap, hfind]

/-- C10 witness: the `int64` value `1` misses the table `{1.0 ↦ "OPEN"}`
although the key's numeric value equals it (contrast with the native-int
case of C2). -/
theorem translateMap_int64_crosstype_excluded_witness :
    (⟨"", [(.f64 1, .str "OPEN")], 1⟩ : driver.Translation).translateMap (.i64 1) =
      .i64 1 :=
  translateMap_int64_crosstype_excluded _ 1 (by decide) (by simp)

/-- C3: for every numeric value (64-bit float, 32-bit float, 64-bit
integer or native integer), coefficient scaling returns the product with
the coefficient truncated to a 64-bit integer when the coefficient
exceeds 1, and keeps the product as a 64-bit float when the coefficient
is below 1; concretely, coefficient 10 on the float 3 yields the integer
30 and coefficient 1/2 on the float 10 yields the float 5. -/
theorem translateCoeff_scaling_semantics :
    (∀ (t : driver.Translation) (f : ℚ),
        (1 < t.A → t.translateCoeff (.f64 f) = .i64 (driver.ratTrunc (f * t.A))) ∧
        (t.A < 1 → t.translateCoeff (.f64 f) = .f64 (f * t.A))) ∧
    (∀ (t : driver.Translation) (f : ℚ),
        (1 < t.A → t.translateCoeff (.f32 f) = .i64 (driver.ratTrunc (f * t.A))) ∧
        (t.A < 1 → t.translateCoeff (.f32 f) = .f64 (f * t.A))) ∧
    (∀ (t : driver.Translation) (n : ℤ),
        (1 < t.A → t.translateCoeff (.i64 n) = .i64 (driver.ratTrunc ((n : ℚ) * t.A))) ∧
        (t.A < 1 → t.translateCoeff (.i64 n) = .f64 ((n : ℚ) * t.A))) ∧
    (∀ (t : driver.Translation) (n : ℤ),
        (1 < t.A → t.translateCoeff (.int n) = .i64 (driver.ratTrunc ((n : ℚ) * t.A))) ∧
        (t.A < 1 → t.translateCoeff (.int n) = .f64 ((n : ℚ) * t.A))) ∧
    (⟨"", [], 10⟩ : driver.Translation).Translate (.f64 3) = .i64 30 ∧
    (⟨"", [], 1/2⟩ : driver.Translation).Translate (.f64 10) = .f64 5 := by
  refine ⟨?_, ?_, ?_, ?_, ?_, ?_⟩
  · intro t f
    exact ⟨fun h => by simp [driver.Translation.translateCoeff, h],
      fun h => by simp [driver.Translation.translateCoeff, not_lt.mpr h.le]⟩
  · intro t f
    exact ⟨fun h => by simp [driver.Translation.translateCoeff, h],
      fun h => by simp [driver.Translation.translateCoeff, not_lt.mpr h.le]⟩
  · intro t n
    exact ⟨fun h => by simp [driver.Translation.translateCoeff, h],
      fun h => by simp [driver.Translation.translateCoeff, not_lt.mpr h.le]⟩
  · intro t n
    exact ⟨fun h => by simp [driver.Translation.translateCoeff, h],
      fun h => by simp [driver.Translation.translateCoeff, not_lt.mpr h.le]⟩
  · simp +decide [driver.Translation.Translate, driver.Translation.translateMap,
      driver.Translation.translateCoeff, driver.ratTrunc]
    norm_num
  · simp +decide [driver.Translation.Translate, driver.Translation.translateMap,
      driver.Translation.translateCoeff]
    norm_num

/-- C3 witness: the coefficient-10 rule applied to the float 3 and the
coefficient-1/2 rule applied to the float 10, via the first clause of
`translateCoeff_scaling_semantics` at those inputs. -/
theorem translateCoeff_scaling_semantics_witness :
    (⟨"", [], 10⟩ : driver.Translation).translateCoeff (.f64 3) =
      .i64 (driver.ratTrunc (3 * 10)) ∧
    (⟨"", [], 1/2⟩ : driver.Translation).translateCoeff (.f64 10) =
      .f64 (10 * (1/2)) :=
  ⟨(translateCoeff_scaling_semantics.1 ⟨"", [], 10⟩ 3).1 (by norm_num),
    (translateCoeff_scaling_semantics.1 ⟨"", [], 1/2⟩ 10).2 (by norm_num)⟩


/-! Concrete descriptor fixtures used by the assembly claims. -/

/-- Actuator descriptor: `AckFrame = "ack"`, no `StateRequestFrame`. -/
def hdAckOnly : driver.HardwareDescriptor :=
  { IsSensor := false, ExtendedType := none, Formula := [], Frequency := none,
    PairingNeeded := false, RequestFrame := none, AckFrame := some "ack",
    StateRequestFrame := none }

/-- Sensor descriptor with `RequestFrame` absent (current model). -/
def hdSensorNoFrame : driver.HardwareDescriptor :=
  { IsSensor := true, ExtendedType := none, Formula := [], Frequency := none,
    PairingNeeded := false, RequestFrame := none, AckFrame := none,
    StateRequestFrame := none }

/-- Sensor descriptor with `RequestFrame` absent (legacy model). -/
def hdSensorNoFrameLegacy : legacy.HardwareDescriptor :=
  { IsSensor := true, ExtendedType := none, Formula := [], ValueFirstIndex := none,
    ValueLastIndex := none, Frequency := none, PairingNeeded := false,
    RequestFrame := none, AckFrame := none, StateRequestFrame := none }

/-- C8: for every actuator descriptor with `AckFrame` present, assembly
(in both the current and the legacy version) sets the read field to the
acknowledge frame and the write field to `StateRequestFrame` when
present, falling back to the acknowledge frame otherwise. -/
theorem initDriverItem_actuator_write_field :
    (∀ (hd : driver.HardwareDescriptor) (a : String),
        hd.IsSensor = false → hd.AckFrame = some a →
        ∃ d : driver.DriverItem, (driver.initDriverItem hd).1 = some d ∧
          (driver.initDriverItem hd).2 = true ∧
          d.Read.Field = a ∧ d.Write.Field = hd.StateRequestFrame.getD a) ∧
    (∀ (hd : legacy.HardwareDescriptor) (a : String),
        hd.IsSensor = false → hd.AckFrame = some a →
        ∃ d : legacy.DriverItem, (legacy.initDriverItem hd).1 = some d ∧
          (legacy.initDriverItem hd).2 = true ∧
          d.Read.Field = a ∧ d.Write.Field = hd.StateRequestFrame.getD a) := by
  constructor
  · intro hd a h1 h2
    refine ⟨_, rfl, rfl, ?_, ?_⟩
    · simp [driver.initDriverItem, Translation.init_Field, h1, h2]
    · cases hst : hd.StateRequestFrame <;>
        simp [driver.initDriverItem, Translation.init_Field, h1, h2, hst]
  · intro hd a h1 h2
    unfold legacy.initDriverItem
    rw [if_neg (by simp [h1]), h2]
    refine ⟨_, rfl, rfl, ?_, ?_⟩
    · simp [Translation.init_Field]
    · cases hst : hd.StateRequestFrame <;> simp [Translation.init_Field, hst]

/-- C8 witness: the actuator descriptor with `AckFrame = "ack"` and no
`StateRequestFrame` assembles (in the current version) into an item whose
read and write fields are both `"ack"`. -/
theorem initDriverItem_actuator_write_field_witness :
    ∃ d : driver.DriverItem,
      (driver.initDriverItem hdAckOnly).1 = some d ∧
      (driver.initDriverItem hdAckOnly).2 = true ∧
      d.Read.Field = "ack" ∧ d.Write.Field = "ack" :=
  initDriverItem_actuator_write_field.1 hdAckOnly "ack" rfl rfl

/-- C1 counterexample: a sensor descriptor with `RequestFrame` absent is
still assembled by the current `initDriverItem`: the function reports
success and produces an item, contradicting the claim that assembly
fails and produces no item. -/
theorem initDriverItem_missing_frame_counterexample :
    (driver.initDriverItem hdSensorNoFrame).2 = true ∧
    ((driver.initDriverItem hdSensorNoFrame).1).isSome = true :=
  ⟨rfl, rfl⟩

/-- C1 (amended): in the current `driver/driverItem.go`, a missing
required frame field is not a failure: assembly reports success and
produces an item whose unresolved field names are left empty (`""`,
except that an actuator's write field still takes a declared
`StateRequestFrame`); only the legacy `initDriverItem` of
`unnamed/part_001` fails, reporting `(nil, false)` and producing no item,
as the original claim states. -/
theorem initDriverItem_missing_frame_split :
    (∀ hd : driver.HardwareDescriptor, hd.IsSensor = true → hd.RequestFrame = none →
        (driver.initDriverItem hd).2 = true ∧
        ∃ d : driver.DriverItem, (driver.initDriverItem hd).1 = some d ∧
          d.Read.Field = "" ∧ d.Write.Field = "") ∧
    (∀ hd : driver.HardwareDescriptor, hd.IsSensor = false → hd.AckFrame = none →
        (driver.initDriverItem hd).2 = true ∧
        ∃ d : driver.DriverItem, (driver.initDriverItem hd).1 = some d ∧
          d.Read.Field = "" ∧ d.Write.Field = hd.StateRequestFrame.getD "") ∧
    (∀ hd : legacy.HardwareDescriptor, hd.IsSensor = true → hd.RequestFrame = none →
        legacy.initDriverItem hd = (none, false)) ∧
    (∀ hd : legacy.HardwareDescriptor, hd.IsSensor = false → hd.AckFrame = none →
        legacy.initDriverItem hd = (none, false)) := by
  refine ⟨?_, ?_, ?_, ?_⟩
  · intro hd h1 h2
    refine ⟨rfl, _, rfl, ?_, ?_⟩ <;>
      simp [driver.initDriverItem, Translation.init_Field, h1, h2]
  · intro hd h1 h2
    refine ⟨rfl, _, rfl, ?_, ?_⟩
    · simp [driver.initDriverItem, Translation.init_Field, h1, h2]
    · cases hst : hd.StateRequestFrame <;>
        simp [driver.initDriverItem, Translation.init_Field, h1, h2, hst]
  · intro hd h1 h2
    unfold legacy.initDriverItem
    rw [if_pos (by simp [h1]), h2]
  · intro hd h1 h2
    unfold legacy.initDriverItem
    rw [if_neg (by simp [h1]), h2]

/-- C1 witness: the sensor descriptor with no `RequestFrame`, through the
first and third clauses of `initDriverItem_missing_frame_split`: the
current assembly succeeds with empty field names, the legacy assembly
fails and produces no item. -/
theorem initDriverItem_missing_frame_split_witness :
    ((driver.initDriverItem hdSensorNoFrame).2 = true ∧
      ∃ d : driver.DriverItem, (driver.initDriverItem hdSensorNoFrame).1 = some d ∧
        d.Read.Field = "" ∧ d.Write.Field = "") ∧
    legacy.initDriverItem hdSensorNoFrameLegacy = (none, false) :=
  ⟨initDriverItem_missing_frame_split.1 hdSensorNoFrame rfl rfl,
    initDriverItem_missing_frame_split.2.2.1 hdSensorNoFrameLegacy rfl rfl⟩
